import Mathlib

/-!
Verification development for the Iframely embed tool (src/src/index.ts).
The source file holds two variants of the same Editor.js block tool class;
both are embedded below where a claim cites them.  DOM nodes are modelled
structurally: a rendered view keeps the embedded markup string and the
caption node content, which is exactly what the class reads back through
querySelector.  Strings stand for JS strings verbatim (innerHTML is treated
as faithful storage), and absent JS values are Option.
-/

namespace EmbedIframely

/-- Normalized block data: the five string fields the tool stores in its
private record.  Mirrors the object literals at variant 1 lines 109-115 and
variant 2 lines 389-395 of src/src/index.ts. -/
structure DataRec where
  caption : String
  html : String
  key : String
  provider : String
  url : String
  deriving Repr, DecidableEq

/-- Host-supplied data object: every field may be absent (JS undefined).
Input to the data setter and the constructors. -/
structure DataInput where
  caption : Option String := none
  html : Option String := none
  key : Option String := none
  provider : Option String := none
  url : Option String := none
  deriving Repr, DecidableEq

/-- Field normalization performed on assignment: each field is defaulted to
the empty string when absent (the JS fallback with the empty-string literal
at lines 110-114; an assigned empty string also stays empty). -/
def normalize (d : DataInput) : DataRec :=
  ⟨d.caption.getD "", d.html.getD "", d.key.getD "", d.provider.getD "", d.url.getD ""⟩

/-- Rendered view (the container element built by render, variant 1 lines
160-180): the embedded markup put into the template, whether the caption is
editable, and the caption node content.  CSS classes and the placeholder
attribute are constants in the source and carry no state. -/
structure View where
  embed : String
  captionEditable : Bool
  captionHTML : String
  deriving Repr, DecidableEq

/-- State of one block instance: the private data record, the current
element (none before the first render), and the read-only flag. -/
structure BlockState where
  _data : DataRec
  element : Option View
  readOnly : Bool
  deriving Repr, DecidableEq

/-- Data getter (variant 1 lines 127-135): when an element exists, the
caption is read back from the rendered caption node before returning the
record.  Every view built by render carries the caption node with the input
class, so querySelector always finds it when the element exists. -/
def getterData (s : BlockState) : DataRec :=
  match s.element with
  | some v => { s._data with caption := v.captionHTML }
  | none => s._data

/-- State effect of the data getter: the private record is updated with the
caption read back from the element. -/
def getterStep (s : BlockState) : BlockState :=
  { s with _data := getterData s }

/-- Render (variant 1 lines 160-180).  Reads this.data.html through the
getter (a state effect), builds the template content, reads
this.data.caption through the getter again, assembles the container, and
stores it as the current element.  The firstChild-or-empty-div fallback is
represented by keeping the html string itself: equal strings give
structurally equal regions. -/
def renderStep (s : BlockState) : View × BlockState :=
  let s1 := getterStep s
  let htmlv := s1._data.html
  let s2 := getterStep s1
  let capv := s2._data.caption
  let v : View := ⟨htmlv, !s.readOnly, capv⟩
  (v, { s2 with element := some v })

/-- JS value assigned to the data property.  Objects carry a DataInput;
the remaining constructors are the non-object primitives the instanceof
check at line 105 rejects. -/
inductive JSVal where
  | obj (d : DataInput)
  | strv (s : String)
  | numv (n : Int)
  | boolv (b : Bool)
  | nullv
  | undef
  deriving Repr, DecidableEq

/-- Truth of the JS instanceof-Object test at line 105. -/
def JSVal.isObj : JSVal → Bool
  | .obj _ => true
  | _ => false

/-- Object branch of the data setter (variant 1 lines 104-122): normalize
the record, then, when an element already exists, replace it with a fresh
render.  The render runs while this.element is still the old view, so its
getter reads the old caption back first. -/
def setDataCore (s : BlockState) (d : DataInput) : BlockState :=
  let s1 := { s with _data := normalize d }
  match s1.element with
  | some _ => (renderStep s1).2
  | none => s1

/-- Data setter (variant 1 lines 104-122): throws on a non-object value,
otherwise normalizes and re-renders. -/
def setData (s : BlockState) (v : JSVal) : Except String BlockState :=
  match v with
  | .obj d => .ok (setDataCore s d)
  | _ => .error "Iframely Tool data should be object"

/-- Blank record the constructor starts from (the empty object cast at
line 94, before the setter overwrites it). -/
def emptyDataRec : DataRec := ⟨"", "", "", "", ""⟩

/-- Constructor (variant 1 lines 92-99): initializes the fields and routes
the host data through the data setter; element is still none, so no render
happens. -/
def construct (v : JSVal) (ro : Bool) : Except String BlockState :=
  setData ⟨emptyDataRec, none, ro⟩ v

/-- Evaluates to true exactly when the Except value carries a state, i.e.
when the modelled call returned without throwing. -/
def exOk : Except String BlockState → Bool
  | .ok _ => true
  | .error _ => false

/-- Save (variant 1 lines 232-244): reads the caption node content back
into the record when an element exists (the querySelector with the input
and caption classes finds the caption node of every rendered view), then
returns the five-field object literal. -/
def save (s : BlockState) : BlockState × DataRec :=
  match s.element with
  | some v =>
    let d := { s._data with caption := v.captionHTML }
    (⟨d, s.element, s.readOnly⟩, d)
  | none => (s, s._data)

/-- Field names of the object literal save returns (lines 237-243), in
source order. -/
def saveFieldNames : List String := ["caption", "html", "key", "provider", "url"]

/-- Modelled from the spec (section 6, refinement comparison for the
persisted-shape claim): the field names the spec says save emits. -/
def specPersistedFields : List String :=
  ["service", "source", "embed", "html", "width", "height", "caption"]

/-- Result of executing a service regex against a URL: none on no match,
otherwise the JS match array (index 0 the whole match, index 1 the first
capture group, a group that did not participate is none). -/
def RegexFn : Type := String → Option (List (Option String))

/-- Key extraction at line 196: the JS expression takes element 1 of the
match array and collapses undefined and the empty string to null. -/
def keyOf (m : List (Option String)) : Option String :=
  match (m.get? 1).join with
  | some st => if st = "" then none else some st
  | none => none

/-- Provider-matching loop of onPaste (variant 1 lines 191-199, variant 2
lines 512-522): walk the service entries in insertion order, skip entries
without a usable regex, and stop at the first entry whose regex matches,
returning the service name and the extracted key. -/
def matchLoop : List (String × Option RegexFn) → String → Option String × Option String
  | [], _ => (none, none)
  | (_, none) :: rest, url => matchLoop rest url
  | (service, some re) :: rest, url =>
    match re url with
    | some m => (some service, keyOf m)
    | none => matchLoop rest url

/-- Arguments of the single handleIframelyFetch call that onPaste issues
(line 200): the pasted URL plus the matched provider and key. -/
structure FetchReq where
  url : String
  provider : Option String
  key : Option String
  deriving Repr, DecidableEq

/-- Paste handler (variant 1 lines 187-201): runs the matching loop on the
pasted string and issues exactly one fetch request carrying its outcome. -/
def onPasteReq (entries : List (String × Option RegexFn)) (pasted : String) : FetchReq :=
  ⟨pasted, (matchLoop entries pasted).1, (matchLoop entries pasted).2⟩

/-- Parsed JSON body of the iframely response, as far as the handler reads
it: null (json can resolve to null) or an object whose html field may be
absent or a string. -/
inductive JsonResp where
  | nullResp
  | objResp (html : Option String)
  deriving Repr, DecidableEq

/-- Outcome of the awaited fetch and json calls: a parsed body, a network
error thrown by fetch, or a parse error thrown by json. -/
inductive FetchResult where
  | ok (j : JsonResp)
  | networkError
  | parseError
  deriving Repr, DecidableEq

/-- Try-block body of handleIframelyFetch (variant 1 lines 207-221): fetch
or json failures throw; a body that is null, lacks html, or carries a falsy
html leaves the state alone (only a warning is logged); a truthy html is
committed through the data setter with an empty caption and the key and
provider defaulted to the empty string. -/
def fetchBody (s : BlockState) (url : String) (provider key : Option String)
    (r : FetchResult) : Except String BlockState :=
  match r with
  | .networkError => .error "fetch failed"
  | .parseError => .error "json parse failed"
  | .ok .nullResp => .ok s
  | .ok (.objResp none) => .ok s
  | .ok (.objResp (some h)) =>
    if h = "" then .ok s
    else setData s (.obj ⟨some "", some h, some (key.getD ""), some (provider.getD ""), some url⟩)

/-- Whole handler (variant 1 lines 203-225): the try-catch wrapper turns
every exception of the body into a logged message with the state
unchanged. -/
def handleFetchE (s : BlockState) (url : String) (provider key : Option String)
    (r : FetchResult) : Except String BlockState :=
  match fetchBody s url provider key r with
  | .ok s2 => .ok s2
  | .error _ => .ok s

/-- State reached after the handler runs (it never throws, so this is the
full behaviour of one fetch resolution). -/
def handleFetch (s : BlockState) (url : String) (provider key : Option String)
    (r : FetchResult) : BlockState :=
  match handleFetchE s url provider key r with
  | .ok s2 => s2
  | .error _ => s

/-- Variant 2 handler (lines 526-554): the same logic but the success
commit writes the private record directly, without the setter and without a
re-render. -/
def handleFetchV2 (s : BlockState) (url : String) (provider key : Option String)
    (r : FetchResult) : BlockState :=
  match r with
  | .ok (.objResp (some h)) =>
    if h = "" then s
    else { s with _data := ⟨"", h, key.getD "", provider.getD "", url⟩ }
  | _ => s

/-- Fresh block with empty data and no element, as after constructing with
an empty object in read-write mode. -/
def initBlock : BlockState := ⟨emptyDataRec, none, false⟩

/-- Value stored under a service name in the services configuration object:
an object that may carry a regex and a template, a boolean, or a
non-object. -/
inductive SpecVal where
  | objSpec (regex : Option String) (template : Option String)
  | boolVal (b : Bool)
  | nonObj
  deriving Repr, DecidableEq

/-- Configuration passed to prepare: the services field may be absent. -/
structure PrepareConfig where
  services : Option (List (String × SpecVal))
  deriving Repr, DecidableEq

/-- Static prepare (variant 1 lines 251-255): destructures services out of
the config with an empty-object default and stores it as the whole services
registry. -/
def prepare (cfg : PrepareConfig) : List (String × SpecVal) :=
  cfg.services.getD []

/-- Modelled from the spec (section 4.1, refinement comparison for the
prepare claim): structural validation of a custom provider spec, which the
spec says drops entries missing a pattern or template or having wrong
types. -/
def specStructurallyValid : SpecVal → Bool
  | .objSpec (some r) (some t) => decide (r ≠ "") && decide (t ≠ "")
  | _ => false

/-- Data object passed to validate, with the fields its contract reads. -/
structure ValidateData where
  service : String := ""
  source : String := ""
  embed : String := ""
  html : String := ""
  deriving Repr, DecidableEq

/-- Modelled from the spec: no variant under src defines validate (the
local-template variant of the plugin carrying it is not among the source
files), so section 4.4 of the spec gives its contract: for remote-fetch
providers non-empty source and non-empty html are required; for
local-template providers non-empty service and one of source or embed.  It
is a total boolean function, so it cannot throw. -/
def validate (remoteServices : List String) (d : ValidateData) : Bool :=
  if remoteServices.contains d.service then
    decide (d.source ≠ "") && decide (d.html ≠ "")
  else
    decide (d.service ≠ "") && (decide (d.source ≠ "") || decide (d.embed ≠ ""))

/-- Regex stub for witnesses: matches every string with first capture idA. -/
def reA : RegexFn := fun _ => some [some "matched", some "idA"]

/-- Regex stub for witnesses: matches every string with first capture idB. -/
def reB : RegexFn := fun _ => some [some "matched", some "idB"]

/-- Concrete rendered view used by counterexamples: a caption already
edited to a non-empty string. -/
def viewOld : View := ⟨"embedHtml", true, "oldCaption"⟩

/-- Concrete block state with a rendered element, used by
counterexamples. -/
def blockWithView : BlockState := ⟨⟨"c0", "h0", "k0", "p0", "u0"⟩, some viewOld, false⟩

/-- Helper: when the first capture group is not the empty string, the key
computed by the paste loop is exactly that capture group (present when the
group participated, absent otherwise). -/
theorem keyOf_eq_join (m : List (Option String)) (hg : (m.get? 1).join ≠ some "") :
    keyOf m = (m.get? 1).join := by
  unfold keyOf
  cases h : (m.get? 1).join with
  | none => rfl
  | some st =>
    rw [h] at hg
    simp only []
    rw [if_neg]
    intro he
    exact hg (by rw [he])

/-- C1: onPaste iterates the registered provider entries in insertion order
and selects the first provider whose pattern matches the pasted URL
(entries without a usable regex are skipped, and the first-registered
provider wins when several match); the extracted key is capture group 1 of
that match when the group is present, else absent.  The hypothesis that
group 1 is not the empty string holds for every registered pattern, whose
first groups are non-empty character classes. -/
theorem url_match_first_provider_wins
    (entries : List (String × Option RegexFn)) (url : String) (i : Nat)
    (svc : String) (re : RegexFn) (m : List (Option String))
    (hi : entries.get? i = some (svc, some re))
    (hm : re url = some m)
    (hfirst : ∀ j, j < i → ∀ svc2 re2, entries.get? j = some (svc2, some re2) → re2 url = none)
    (hg : (m.get? 1).join ≠ some "") :
    matchLoop entries url = (some svc, (m.get? 1).join) := by
  induction entries generalizing i with
  | nil => simp at hi
  | cons hd tl ih =>
    obtain ⟨name, cfg⟩ := hd
    cases i with
    | zero =>
      simp only [List.get?] at hi
      obtain ⟨rfl, rfl⟩ : name = svc ∧ cfg = some re := by
        constructor <;> [skip; skip] <;> injection hi with h2 <;>
          [exact congrArg Prod.fst h2; exact congrArg Prod.snd h2]
      simp only [matchLoop, hm, keyOf_eq_join m hg]
    | succ i2 =>
      simp only [List.get?] at hi
      have hstep : matchLoop ((name, cfg) :: tl) url = matchLoop tl url := by
        cases cfg with
        | none => rfl
        | some re0 =>
          have h0 : re0 url = none := hfirst 0 (Nat.succ_pos i2) name re0 rfl
          simp only [matchLoop, h0]
      rw [hstep]
      exact ih i2 hi (fun j hj s2 r2 hj2 =>
        hfirst (j + 1) (Nat.succ_lt_succ hj) s2 r2 hj2)

/-- Witness for C1: two providers whose patterns both match the pasted URL;
the loop picks the first-registered one and its key is the first capture
group. -/
theorem url_match_first_provider_wins_witness :
    matchLoop [("alpha", some reA), ("beta", some reB)] "http://u" = (some "alpha", some "idA") ∧
      reB "http://u" = some [some "matched", some "idB"] := by
  constructor
  · have h := url_match_first_provider_wins
      [("alpha", some reA), ("beta", some reB)] "http://u" 0 "alpha" reA
      [some "matched", some "idA"] rfl rfl
      (fun j hj => absurd hj (Nat.not_lt_zero j))
      (by decide)
    exact h
  · rfl

/-- C3 counterexample: at a concrete failing fetch (network error) on a
fresh block, the code commits no error state at all: the data record is
unchanged and its html is the empty string, not non-empty error-placeholder
markup. -/
theorem fetch_failure_no_error_state_counterexample :
    handleFetch initBlock "u" none none .networkError = initBlock ∧
      (handleFetch initBlock "u" none none .networkError)._data.html = "" := by
  constructor <;> rfl

/-- C3 amended: for every failed fetch (network error, JSON parse error,
null body, body without html, or body with an empty html) both handler
variants leave the block data completely unchanged; no error state, no
pendingFetch bookkeeping (no such field exists) and, the handler consuming
the outcome of its single fetch, no retry. -/
theorem fetch_failure_leaves_data_unchanged
    (s : BlockState) (url : String) (provider key : Option String) :
    handleFetch s url provider key .networkError = s ∧
      handleFetch s url provider key .parseError = s ∧
      handleFetch s url provider key (.ok .nullResp) = s ∧
      handleFetch s url provider key (.ok (.objResp none)) = s ∧
      handleFetch s url provider key (.ok (.objResp (some ""))) = s ∧
      handleFetchV2 s url provider key .networkError = s ∧
      handleFetchV2 s url provider key .parseError = s ∧
      handleFetchV2 s url provider key (.ok .nullResp) = s ∧
      handleFetchV2 s url provider key (.ok (.objResp none)) = s ∧
      handleFetchV2 s url provider key (.ok (.objResp (some ""))) = s := by
  refine ⟨rfl, rfl, rfl, rfl, ?_, rfl, rfl, rfl, rfl, ?_⟩ <;>
    simp [handleFetch, handleFetchE, fetchBody, handleFetchV2]

/-- C4: for every prior state, URL, provider, key and every outcome of the
external fetch (success with any body shape, network error, parse error),
handleIframelyFetch never propagates an exception: the try-catch wrapper
always yields a state. -/
theorem handle_fetch_never_throws
    (s : BlockState) (url : String) (provider key : Option String) (r : FetchResult) :
    ∃ s2, handleFetchE s url provider key r = Except.ok s2 := by
  unfold handleFetchE
  cases hfb : fetchBody s url provider key r with
  | ok s2 => exact ⟨s2, rfl⟩
  | error e => exact ⟨s, rfl⟩

/-- C2 counterexample: paste A then paste B, B resolves first, then A
resolves late.  The code has no staleness guard, so the final data reflects
A (url uA), not B as the claim requires. -/
theorem stale_fetch_claim_counterexample :
    (handleFetch
        (handleFetch initBlock "uB" (some "pB") (some "kB") (.ok (.objResp (some "HB"))))
        "uA" (some "pA") (some "kA") (.ok (.objResp (some "HA"))))._data.url = "uA" ∧
      ("uA" : String) ≠ "uB" := by
  constructor
  · rfl
  · decide

/-- C2 amended: there is no generation or staleness check; whenever a fetch
resolves successfully with non-empty html, its result is committed
unconditionally over whatever data the block holds, so the final data
reflects whichever successful fetch resolved last, not the last
assignment. -/
theorem stale_fetch_overwrites_latest
    (s : BlockState) (url : String) (provider key : Option String) (h : String)
    (hne : h ≠ "") :
    (handleFetch s url provider key (.ok (.objResp (some h))))._data.url = url ∧
      (handleFetch s url provider key (.ok (.objResp (some h))))._data.html = h := by
  obtain ⟨d0, el, ro⟩ := s
  cases el with
  | none =>
    simp [handleFetch, handleFetchE, fetchBody, if_neg hne, setData, setDataCore, normalize]
  | some v =>
    simp [handleFetch, handleFetchE, fetchBody, if_neg hne, setData, setDataCore, normalize,
      renderStep, getterStep, getterData]

/-- Witness for C2 amended: a concrete late successful resolution with
non-empty html overwrites the block that already holds the newer data. -/
theorem stale_fetch_overwrites_latest_witness :
    ("HA" : String) ≠ "" ∧
      (handleFetch
          (handleFetch initBlock "uB" (some "pB") (some "kB") (.ok (.objResp (some "HB"))))
          "uA" (some "pA") (some "kA") (.ok (.objResp (some "HA"))))._data.url = "uA" :=
  ⟨by decide,
    (stale_fetch_overwrites_latest
      (handleFetch initBlock "uB" (some "pB") (some "kB") (.ok (.objResp (some "HB"))))
      "uA" (some "pA") (some "kA") "HA" (by decide)).1⟩

/-- C5 counterexample: the object literal save returns has the field names
caption, html, key, provider, url; it carries no service field and is not
contained in the field set the claim asserts, so the claimed persisted
shape is false of the code. -/
theorem save_shape_counterexample :
    saveFieldNames.contains "service" = false ∧
      saveFieldNames.all (fun f => specPersistedFields.contains f) = false := by
  decide

/-- C5 amended: save first reads the current caption node content back into
the data record (when an element is rendered) and returns exactly the
five-field record caption, html, key, provider, url of the updated data;
the returned record coincides with what the data getter yields, and no
pendingFetch field exists (the persisted field list does not contain
it). -/
theorem save_returns_internal_shape (s : BlockState) :
    (save s).2 = getterData s ∧
      (save s).1._data = getterData s ∧
      saveFieldNames = ["caption", "html", "key", "provider", "url"] ∧
      "pendingFetch" ∉ saveFieldNames ∧
      (∀ v, s.element = some v → (save s).2.caption = v.captionHTML) := by
  obtain ⟨d0, el, ro⟩ := s
  cases el with
  | none =>
    refine ⟨rfl, rfl, rfl, by decide, ?_⟩
    intro v hv
    exact absurd hv (by simp)
  | some v0 =>
    refine ⟨rfl, rfl, rfl, by decide, ?_⟩
    intro v hv
    injection hv with hv
    subst hv
    rfl

/-- Witness for C5 amended: on a concrete block with a rendered element the
returned record carries the caption read back from the view. -/
theorem save_returns_internal_shape_witness :
    (save blockWithView).2.caption = "oldCaption" ∧ "pendingFetch" ∉ saveFieldNames := by
  have h := save_returns_internal_shape blockWithView
  exact ⟨h.2.2.2.2 viewOld rfl, h.2.2.2.1⟩

/-- C7 counterexample: a custom spec with neither pattern nor template (so
structurally invalid per the spec) passed through prepare is kept verbatim
in the active provider set rather than dropped. -/
theorem prepare_keeps_invalid_spec_counterexample :
    prepare ⟨some [("bad", SpecVal.objSpec none none)]⟩ = [("bad", SpecVal.objSpec none none)] ∧
      specStructurallyValid (SpecVal.objSpec none none) = false := by
  constructor <;> rfl

/-- C7 amended: prepare stores the services mapping of the configuration
verbatim as the whole active provider set (the empty set when the field is
absent); no compiled-in defaults are merged and no structural validation
runs, so every supplied entry, valid or not, is kept. -/
theorem prepare_stores_services_verbatim (svcs : List (String × SpecVal)) :
    prepare ⟨some svcs⟩ = svcs ∧
      prepare ⟨none⟩ = [] ∧
      (∀ k v, (k, v) ∈ svcs → (k, v) ∈ prepare ⟨some svcs⟩) := by
  refine ⟨rfl, rfl, ?_⟩
  intro k v hv
  simpa [prepare] using hv

/-- Witness for C7 amended: a concrete invalid entry is a member of the
prepared registry. -/
theorem prepare_stores_services_verbatim_witness :
    ("bad", SpecVal.objSpec none none) ∈ prepare ⟨some [("bad", SpecVal.objSpec none none)]⟩ :=
  (prepare_stores_services_verbatim [("bad", SpecVal.objSpec none none)]).2.2
    "bad" (SpecVal.objSpec none none) (by simp)

/-- C6: validate (modelled from the spec, no variant under src defines it)
returns a boolean and, being total, never throws; for services in the
remote-fetch set it is true exactly when source and html are both
non-empty, otherwise exactly when service is non-empty and one of source or
embed is non-empty; in particular it rejects a record with only a service
and accepts one with a service and a source. -/
theorem validate_contract (rs : List String) (d : ValidateData) :
    (rs.contains d.service = true →
        (validate rs d = true ↔ (d.source ≠ "" ∧ d.html ≠ ""))) ∧
      (rs.contains d.service = false →
        (validate rs d = true ↔ (d.service ≠ "" ∧ (d.source ≠ "" ∨ d.embed ≠ "")))) ∧
      validate [] ⟨"x", "", "", ""⟩ = false ∧
      validate [] ⟨"x", "http://a", "", ""⟩ = true := by
  refine ⟨?_, ?_, by decide, by decide⟩
  · intro hc
    simp only [validate, hc, if_true]
    simp
  · intro hc
    simp only [validate, hc, if_false]
    simp

/-- Witness for C6: a concrete remote-fetch service with non-empty source
and html validates. -/
theorem validate_contract_witness :
    List.contains ["rem"] "rem" = true ∧ validate ["rem"] ⟨"rem", "s", "", "h"⟩ = true :=
  ⟨by decide,
    ((validate_contract ["rem"] ⟨"rem", "s", "", "h"⟩).1 (by decide)).mpr
      ⟨by decide, by decide⟩⟩

/-- C8: assigning block data throws exactly on non-object values, and never
on an object: the success of the setter (and of construction, which routes
the host data through it) coincides with the instanceof-Object test, and
the thrown message is the error at line 106. -/
theorem set_data_throws_iff_non_object (s : BlockState) (v : JSVal) (ro : Bool) (t : String) :
    exOk (setData s v) = v.isObj ∧
      exOk (construct v ro) = v.isObj ∧
      setData s (.strv t) = .error "Iframely Tool data should be object" := by
  refine ⟨?_, ?_, rfl⟩ <;> cases v <;> rfl

/-- C9: render is idempotent given unchanged data: calling render twice
with no data reassignment in between yields structurally equal root
elements (same embedded region, same caption content), even though the
second call re-reads the caption through the getter from the element the
first call installed. -/
theorem render_idempotent (s : BlockState) :
    (renderStep (renderStep s).2).1 = (renderStep s).1 := by
  obtain ⟨d0, el, ro⟩ := s
  cases el <;> rfl

/-- C10 counterexample: a successful fetch commit through the variant 1
setter on a block with a rendered element does not reset the caption to the
empty string: the re-render inside the setter reads the old caption node
back into the record, so the final caption is the old view content. -/
theorem fetch_commit_caption_counterexample :
    (handleFetch blockWithView "u1" (some "p1") (some "k1")
        (.ok (.objResp (some "H1"))))._data.caption = "oldCaption" ∧
      ("oldCaption" : String) ≠ "" := by
  constructor
  · rfl
  · decide

/-- C10 amended: construction and a setter assignment on a block without a
rendered element store the normalized record (all five fields strings,
absent fields becoming empty); a setter assignment on a block with a
rendered element stores the normalized record except that the caption is
read back from the old view; the variant 2 fetch commit stores the record
directly and does reset the caption to the empty string. -/
theorem data_normalization_invariant :
    (∀ d ro, construct (.obj d) ro = .ok ⟨normalize d, none, ro⟩) ∧
      (∀ d0 ro d, setDataCore ⟨d0, none, ro⟩ d = ⟨normalize d, none, ro⟩) ∧
      (∀ d0 v ro d, (setDataCore ⟨d0, some v, ro⟩ d)._data =
        { normalize d with caption := v.captionHTML }) ∧
      (∀ s url provider key h, h ≠ "" →
        (handleFetchV2 s url provider key (.ok (.objResp (some h))))._data =
          ⟨"", h, key.getD "", provider.getD "", url⟩) := by
  refine ⟨fun d ro => rfl, fun d0 ro d => rfl, fun d0 v ro d => rfl, ?_⟩
  intro s url provider key h hne
  simp [handleFetchV2, if_neg hne]

/-- Witness for C10 amended: a concrete construction normalizes the empty
input, and a concrete variant 2 fetch commit with non-empty html resets the
caption. -/
theorem data_normalization_invariant_witness :
    construct (.obj ⟨none, none, none, none, none⟩) false =
        .ok ⟨⟨"", "", "", "", ""⟩, none, false⟩ ∧
      (handleFetchV2 initBlock "u" none none (.ok (.objResp (some "H"))))._data =
        ⟨"", "H", "", "", "u"⟩ := by
  have h := data_normalization_invariant
  exact ⟨h.1 ⟨none, none, none, none, none⟩ false,
    h.2.2.2 initBlock "u" none none "H" (by decide)⟩

end EmbedIframely
